import Mathlib

/-!
Verification of the meal-planner pipeline (`src/main.py`).

The file shallowly embeds the deterministic data transforms of the script:
the inventory filter `fetch_recent_grocery_data` (lines 35-85), the
preference store `read_memory_bank` / `write_memory_bank` /
`update_preferences` / `save_selected_meal` (lines 87-160).

Modelling conventions:
  * Timestamps are `Int` seconds; a calendar day is 86400 seconds.
    `datetime.now()` is modelled as an arbitrary reference instant, given
    either directly (`now : Int`) or as a calendar date plus seconds past
    midnight (`nowDate : Date`, `tod : Int`).
  * `pd.to_datetime(_, errors='coerce')` and
    `datetime.strptime(_, "%Y-%m-%d")` are modelled by `parseDateYMD`,
    which accepts exactly the strings `datetime.strptime` accepts for the
    format "%Y-%m-%d" with ASCII digits: a 4-digit year ≥ 1, a 1-2 digit
    month 1..12, a 1-2 digit day valid for that month.  `errors='coerce'`
    maps a failed parse to `none` (NaT); `strptime` raises, which the
    embedding surfaces as `Option`/unchanged-disk results.  (pandas also
    coerces dates outside the `Timestamp` range, years 1677..2262, to NaT;
    all concrete inputs below stay far inside that range.)
  * The local JSON file `memory_bank.json` is modelled by `Disk`:
    absent, present-but-invalid-JSON, or holding a decoded record.
    Records written by this program always carry the three keys
    "dislikes", "favorites", "last_14_days_suggestions", so a decoded
    record is a `Memory` structure with those fields.
  * Python truthiness of the optional `str` arguments of
    `update_preferences` is modelled on `Option String`: `None` and the
    empty string are falsy.
  * Network, spreadsheet authentication, the LLM agents and the Discord
    webhook are I/O outside the model; `fetch_recent_grocery_data` is
    embedded from the point where the fetched rows exist (the DataFrame
    built from `values[1:]` with the 11 fixed columns).
-/

/-- A calendar date, as produced by parsing "%Y-%m-%d". -/
structure Date where
  y : Nat
  m : Nat
  d : Nat
deriving DecidableEq, Repr

/-- Gregorian leap-year test, as in Python's `calendar`/`datetime`. -/
def isLeap (y : Nat) : Bool :=
  (y % 4 = 0 && y % 100 ≠ 0) || y % 400 = 0

/-- Number of days in month `m` of year `y` (as validated by `datetime`). -/
def daysInMonth (y m : Nat) : Nat :=
  if m = 2 then (if isLeap y then 29 else 28)
  else if m = 4 ∨ m = 6 ∨ m = 9 ∨ m = 11 then 30
  else 31

/-- Days since 1970-01-01 of a civil date (Howard Hinnant's algorithm,
the arithmetic underlying `datetime`/`pandas` timestamps). -/
def Date.toDays (dt : Date) : Int :=
  let y : Int := if dt.m ≤ 2 then (dt.y : Int) - 1 else (dt.y : Int)
  let era : Int := (if 0 ≤ y then y else y - 399) / 400
  let yoe : Int := y - era * 400
  let mp : Int := ((dt.m : Int) + 9) % 12
  let doy : Int := (153 * mp + 2) / 5 + (dt.d : Int) - 1
  let doe : Int := yoe * 365 + yoe / 4 - yoe / 100 + doy
  era * 146097 + doe - 719468

/-- Seconds since the epoch of a date's midnight: both `strptime` and
`pd.to_datetime` of a plain date yield midnight of that date. -/
def Date.toSeconds (dt : Date) : Int :=
  dt.toDays * 86400

/-- ASCII decimal digit test (the `\d` of `_strptime`'s regex, restricted
to ASCII as all concrete data here is). -/
def isDigitChar (c : Char) : Bool :=
  48 ≤ c.toNat && c.toNat ≤ 57

/-- Value of a list of decimal digit characters (what `int()` computes on
the matched groups). -/
def digitsVal (cs : List Char) : Nat :=
  cs.foldl (fun acc c => acc * 10 + (c.toNat - 48)) 0

/-- Split a character list on `'-'` (same behaviour as `String.splitOn "-"`):
"%Y-%m-%d" matches the whole string exactly when this yields the three
groups year/month/day. -/
def splitOnDash : List Char → List (List Char)
  | [] => [[]]
  | c :: rest =>
    let r := splitOnDash rest
    if c = '-' then [] :: r
    else
      match r with
      | [] => [[c]]
      | h :: t => (c :: h) :: t

/-- `datetime.strptime(s, "%Y-%m-%d")`, and `pd.to_datetime(s)` on a plain
ISO date: `some` of the date on success, `none` (raise / NaT) otherwise.
`%Y` matches exactly 4 digits, `%m` and `%d` match 1-2 digits, the month
must be 1..12, the day 1..daysInMonth, and `datetime` requires year ≥ 1. -/
def parseDateYMD (s : String) : Option Date :=
  match splitOnDash s.data with
  | [ys, ms, ds] =>
    if ys.length = 4 ∧ ys.all isDigitChar
        ∧ 1 ≤ ms.length ∧ ms.length ≤ 2 ∧ ms.all isDigitChar
        ∧ 1 ≤ ds.length ∧ ds.length ≤ 2 ∧ ds.all isDigitChar then
      let y := digitsVal ys
      let m := digitsVal ms
      let d := digitsVal ds
      if 1 ≤ y ∧ 1 ≤ m ∧ m ≤ 12 ∧ 1 ≤ d ∧ d ≤ daysInMonth y m then
        some ⟨y, m, d⟩
      else none
    else none
  | _ => none

/-- The digit character for `n % 10`. -/
def digitChar (n : Nat) : Char :=
  Char.ofNat (48 + n % 10)

/-- Two-digit zero-padded rendering (strftime `%m` / `%d`). -/
def pad2 (n : Nat) : List Char :=
  [digitChar (n / 10), digitChar n]

/-- Four-digit zero-padded rendering (strftime `%Y`; years of `datetime`
dates reaching `strftime` in this program are ≤ 9999, where this is
exact). -/
def pad4 (n : Nat) : List Char :=
  [digitChar (n / 1000), digitChar (n / 100), digitChar (n / 10), digitChar n]

/-- `strftime("%Y-%m-%d")`. -/
def formatYMD (dt : Date) : String :=
  ⟨pad4 dt.y ++ '-' :: (pad2 dt.m ++ '-' :: pad2 dt.d)⟩

/-- ASCII lower-casing of one character (`str.lower` / `case=False`,
restricted to ASCII letters). -/
def lowerChar (c : Char) : Char :=
  if 65 ≤ c.toNat ∧ c.toNat ≤ 90 then Char.ofNat (c.toNat + 32) else c

/-- `needle` occurs at the start of `hay`. -/
def leadsWith : List Char → List Char → Bool
  | [], _ => true
  | _ :: _, [] => false
  | a :: as, b :: bs => a = b && leadsWith as bs

/-- `needle` occurs somewhere in `hay` (plain substring search; the
pattern "Veg" has no regex metacharacters, so pandas' `str.contains`
is exactly this). -/
def occursIn (needle : List Char) : List Char → Bool
  | [] => needle.isEmpty
  | c :: t => leadsWith needle (c :: t) || occursIn needle t

/-- `hay.str.contains(needle, case=False)`: case-insensitive substring. -/
def containsCI (hay needle : String) : Bool :=
  occursIn (needle.data.map lowerChar) (hay.data.map lowerChar)

/-- One spreadsheet row, with the 11 fixed columns of the sheet
(`expected_cols` in `fetch_recent_grocery_data`); every cell arrives as
text. -/
structure Row where
  DATE : String
  ITEM : String
  STORE : String
  CATEGORY : String
  QTY : String
  UNIT : String
  PRICE : String
  COMMENT : String
  DAY : String
  MONTH : String
  YEAR : String
deriving DecidableEq, Repr

/-- `df['DATE'] = pd.to_datetime(df['DATE'], errors='coerce')`: each row
paired with its coerced date (`none` = NaT). -/
def coerceDates (rows : List Row) : List (Row × Option Date) :=
  rows.map (fun r => (r, parseDateYMD r.DATE))

/-- A coerced date compared against a cutoff instant, with pandas NaT
semantics: any comparison against NaT is false. -/
def dateGEb (o : Option Date) (cutoff : Int) : Bool :=
  match o with
  | none => false
  | some d => decide (cutoff ≤ d.toSeconds)

/-- `recent_items = df[df['DATE'] >= two_weeks_ago]` with
`two_weeks_ago = datetime.now() - timedelta(days=14)`. -/
def filterRecent (now : Int) (prs : List (Row × Option Date)) :
    List (Row × Option Date) :=
  prs.filter (fun p => dateGEb p.2 (now - 14 * 86400))

/-- `veggies = recent_items[recent_items['CATEGORY'].astype(str)
.str.contains("Veg", case=False, na=False)]`. -/
def filterVeg (prs : List (Row × Option Date)) : List (Row × Option Date) :=
  prs.filter (fun p => containsCI p.1.CATEGORY "Veg")

/-- The rows that survive both filters, with their parsed dates. -/
def survivingPairs (now : Int) (rows : List Row) : List (Row × Option Date) :=
  filterVeg (filterRecent now (coerceDates rows))

/-- The f-string of the `iterrows` loop body:
`f"{row['ITEM']} ({row['QTY']} {row['UNIT']}) bought on {row['DATE'].strftime('%Y-%m-%d')}"`.
The `none` branch is unreachable: NaT rows never pass the date filter
(`strftime` on NaT would raise; "NaT" is the placeholder pandas prints). -/
def lineOf (p : Row × Option Date) : String :=
  p.1.ITEM ++ " (" ++ p.1.QTY ++ " " ++ p.1.UNIT ++ ") bought on " ++
    (match p.2 with
     | some d => formatYMD d
     | none => "NaT")

/-- The `inventory_list` built by the `for _, row in veggies.iterrows()`
loop, one `append` per surviving row. -/
def inventoryLines (now : Int) (rows : List Row) : List String :=
  (survivingPairs now rows).foldl (fun acc p => acc ++ [lineOf p]) []

/-- The sentinel returned when no vegetable survives the filters. -/
def noVegMessage : String :=
  "No vegetables found bought in the last 14 days. Check if 'CATEGORY' column matches 'Veg'."

/-- `fetch_recent_grocery_data`, from the DataFrame stage on: filter the
rows to the last 14 days and to vegetable categories, render one line per
survivor, and fall back to the sentinel when the list is empty. -/
def fetch_recent_grocery_data (now : Int) (rows : List Row) : String :=
  let inventory_list := inventoryLines now rows
  if inventory_list = [] then noVegMessage
  else String.intercalate "\n" inventory_list

/-- One entry of `last_14_days_suggestions`: `{"meal": ..., "date": ...}`. -/
structure Entry where
  meal : String
  date : String
deriving DecidableEq, Repr

/-- The decoded `memory_bank.json` record. -/
structure Memory where
  dislikes : List String
  favorites : List String
  last_14_days_suggestions : List Entry
deriving DecidableEq, Repr

/-- The default structure `read_memory_bank` builds when the file does
not exist. -/
def default_memory : Memory :=
  { dislikes := []
    favorites := ["Daal Chawal", "Chicken Handi White"]
    last_14_days_suggestions := [] }

/-- The state of the local file `memory_bank.json`. -/
inductive Disk where
  | absent : Disk
  | corrupt : Disk
  | stored : Memory → Disk
deriving DecidableEq, Repr

/-- `read_memory_bank`: `open` + `json.load` with `except FileNotFoundError`
only.  A missing file yields the default record; a file that is not valid
JSON makes `json.load` raise `JSONDecodeError`, which is not caught. -/
def read_memory_bank : Disk → Except String Memory
  | Disk.absent => Except.ok default_memory
  | Disk.corrupt => Except.error "JSONDecodeError"
  | Disk.stored m => Except.ok m

/-- `write_memory_bank`: `json.dump` replaces the file content. -/
def write_memory_bank (data : Memory) : Disk :=
  Disk.stored data

/-- The in-memory mutation of `update_preferences` (lines 117-124): each
optional name is appended to its list when it is truthy (non-`None`,
non-empty) and not already present. -/
def update_preferences (favorite dislike : Option String) (memory : Memory) :
    Memory :=
  let m1 :=
    match favorite with
    | none => memory
    | some f =>
      if f ≠ "" ∧ f ∉ memory.favorites then
        { memory with favorites := memory.favorites ++ [f] }
      else memory
  match dislike with
  | none => m1
  | some d =>
    if d ≠ "" ∧ d ∉ m1.dislikes then
      { m1 with dislikes := m1.dislikes ++ [d] }
    else m1

/-- `update_preferences` as the caller sees the disk: read (a decode
error propagates, leaving the file as it was), mutate, write. -/
def update_preferences_run (favorite dislike : Option String) (disk : Disk) :
    Disk :=
  match read_memory_bank disk with
  | Except.error _ => disk
  | Except.ok memory => write_memory_bank (update_preferences favorite dislike memory)

/-- The pruning list comprehension of `save_selected_meal` (lines 153-156):
keep the entries whose `strptime`-parsed date is `>= cutoff_date`;
`strptime` raises (`none`) on the first entry whose date does not parse. -/
def pruneHistory (cutoff : Int) : List Entry → Option (List Entry)
  | [] => some []
  | e :: rest =>
    match parseDateYMD e.date with
    | none => none
    | some d =>
      match pruneHistory cutoff rest with
      | none => none
      | some tail =>
        some (if cutoff ≤ d.toSeconds then e :: tail else tail)

/-- The retention predicate of the comprehension, on one entry. -/
def entryWithin (cutoff : Int) (e : Entry) : Bool :=
  match parseDateYMD e.date with
  | none => false
  | some d => decide (cutoff ≤ d.toSeconds)

/-- The in-memory part of `save_selected_meal`: append
`{"meal": meal_name, "date": now.strftime("%Y-%m-%d")}` to the history,
then prune entries older than `now - timedelta(days=14)`.  `nowDate` is
the calendar date of `datetime.now()` and `tod` its seconds past
midnight; `none` models the uncaught `strptime` exception. -/
def save_selected_meal (meal_name : String) (nowDate : Date) (tod : Int)
    (memory : Memory) : Option Memory :=
  let suggestion_entry : Entry := { meal := meal_name, date := formatYMD nowDate }
  let appended := memory.last_14_days_suggestions ++ [suggestion_entry]
  let cutoff_date := (nowDate.toSeconds + tod) - 14 * 86400
  match pruneHistory cutoff_date appended with
  | none => none
  | some pruned => some { memory with last_14_days_suggestions := pruned }

/-- `save_selected_meal` as the caller sees the disk: read, mutate, write;
an exception anywhere leaves the file as it was. -/
def save_selected_meal_run (meal_name : String) (nowDate : Date) (tod : Int)
    (disk : Disk) : Disk :=
  match read_memory_bank disk with
  | Except.error _ => disk
  | Except.ok memory =>
    match save_selected_meal meal_name nowDate tod memory with
    | none => disk
    | some m2 => write_memory_bank m2

/-- The shape "YYYY-MM-DD": ten characters, four digits, a hyphen, two
digits, a hyphen, two digits. -/
def isYMDShape (s : String) : Bool :=
  match s.data with
  | [y1, y2, y3, y4, h1, m1, m2, h2, d1, d2] =>
    isDigitChar y1 && isDigitChar y2 && isDigitChar y3 && isDigitChar y4 &&
    h1 = '-' && isDigitChar m1 && isDigitChar m2 &&
    h2 = '-' && isDigitChar d1 && isDigitChar d2
  | _ => false

/-- A vegetable row bought on 2025-01-16 (5 days before 2025-01-21). -/
def rowVeg5 : Row :=
  { DATE := "2025-01-16", ITEM := "Carrot", STORE := "Imtiaz"
    CATEGORY := "Vegetable", QTY := "2", UNIT := "kg", PRICE := "150"
    COMMENT := "", DAY := "16", MONTH := "1", YEAR := "2025" }

/-- A vegetable row bought on 2025-01-01 (20 days before 2025-01-21). -/
def rowVeg20 : Row :=
  { DATE := "2025-01-01", ITEM := "Spinach", STORE := "Imtiaz"
    CATEGORY := "Vegetable", QTY := "1", UNIT := "bunch", PRICE := "80"
    COMMENT := "", DAY := "1", MONTH := "1", YEAR := "2025" }

/-- A vegetable row dated 2025-03-01, after the reference time 2025-01-15. -/
def rowFuture : Row :=
  { DATE := "2025-03-01", ITEM := "Tinda", STORE := "Imtiaz"
    CATEGORY := "Vegetable", QTY := "3", UNIT := "kg", PRICE := "200"
    COMMENT := "", DAY := "1", MONTH := "3", YEAR := "2025" }

/-- A row whose category matches the substring filter only up to case. -/
def rowVeggies : Row :=
  { DATE := "2025-01-16", ITEM := "Okra", STORE := "Imtiaz"
    CATEGORY := "Fresh VEGGIES", QTY := "1", UNIT := "kg", PRICE := "120"
    COMMENT := "", DAY := "16", MONTH := "1", YEAR := "2025" }

/-- A row with a date `pd.to_datetime` cannot parse. -/
def rowBadDate : Row :=
  { DATE := "soon", ITEM := "Peas", STORE := "Imtiaz"
    CATEGORY := "Vegetable", QTY := "1", UNIT := "kg", PRICE := "90"
    COMMENT := "", DAY := "", MONTH := "", YEAR := "" }

/-- A memory record whose history holds an entry with an unparseable date. -/
def badHistoryMemory : Memory :=
  { dislikes := []
    favorites := []
    last_14_days_suggestions := [⟨"Karahi", "not-a-date"⟩] }

example : parseDateYMD "2025-01-01" = some ⟨2025, 1, 1⟩ := by decide

example : parseDateYMD "2025-1-5" = some ⟨2025, 1, 5⟩ := by decide

example : parseDateYMD "2025-02-30" = none := by decide

example : parseDateYMD "garbage" = none := by decide

example : formatYMD ⟨2025, 1, 1⟩ = "2025-01-01" := by decide

example : Date.toDays ⟨1970, 1, 1⟩ = 0 := by decide

example : Date.toDays ⟨2025, 1, 15⟩ - Date.toDays ⟨2025, 1, 1⟩ = 14 := by decide

example : containsCI "Fresh Vegetables" "veg" = true := by decide

example : containsCI "Fruit" "veg" = false := by decide

/-! ### Helper lemmas -/

theorem foldl_append_singleton {α β : Type} (f : α → β) (l : List α) (acc : List β) :
    l.foldl (fun a p => a ++ [f p]) acc = acc ++ l.map f := by
  induction l generalizing acc with
  | nil => simp
  | cons x xs ih => simp [List.foldl_cons, ih]

theorem inventoryLines_eq_map (now : Int) (rows : List Row) :
    inventoryLines now rows = (survivingPairs now rows).map lineOf := by
  unfold inventoryLines
  simpa using foldl_append_singleton lineOf (survivingPairs now rows) []

theorem pruneHistory_eq_filter (cutoff : Int) (l : List Entry)
    (h : ∀ e ∈ l, (parseDateYMD e.date).isSome = true) :
    pruneHistory cutoff l = some (l.filter (fun e => entryWithin cutoff e)) := by
  induction l with
  | nil => rfl
  | cons a t ih =>
    have ha : (parseDateYMD a.date).isSome = true := h a (by simp)
    have ht : ∀ e ∈ t, (parseDateYMD e.date).isSome = true :=
      fun e he => h e (by simp [he])
    obtain ⟨d, hd⟩ := Option.isSome_iff_exists.mp ha
    by_cases hc : cutoff ≤ d.toSeconds
    · simp [pruneHistory, hd, ih ht, List.filter_cons, entryWithin, hc]
    · simp [pruneHistory, hd, ih ht, List.filter_cons, entryWithin, hc]

theorem pruneHistory_none_of_bad (cutoff : Int) (l : List Entry) (e : Entry)
    (he : e ∈ l) (hbad : parseDateYMD e.date = none) :
    pruneHistory cutoff l = none := by
  induction l with
  | nil => cases he
  | cons a t ih =>
    rcases List.mem_cons.mp he with rfl | hmem
    · simp [pruneHistory, hbad]
    · cases hp : parseDateYMD a.date with
      | none => simp [pruneHistory, hp]
      | some d => simp [pruneHistory, hp, ih hmem]

theorem pruneHistory_sound (cutoff : Int) (l out : List Entry)
    (h : pruneHistory cutoff l = some out) :
    ∀ e ∈ out, entryWithin cutoff e = true := by
  induction l generalizing out with
  | nil =>
    simp only [pruneHistory, Option.some.injEq] at h
    subst h; intro e he; cases he
  | cons a t ih =>
    simp only [pruneHistory] at h
    cases hp : parseDateYMD a.date with
    | none => rw [hp] at h; cases h
    | some d =>
      rw [hp] at h
      cases hrec : pruneHistory cutoff t with
      | none => rw [hrec] at h; cases h
      | some tail =>
        rw [hrec] at h
        simp only [Option.some.injEq] at h
        subst h
        intro e he
        by_cases hc : cutoff ≤ d.toSeconds
        · rw [if_pos hc] at he
          rcases List.mem_cons.mp he with rfl | hmem
          · simp [entryWithin, hp, hc]
          · exact ih tail hrec e hmem
        · rw [if_neg hc] at he
          exact ih tail hrec e he

theorem containsCI_Veg_eq_veg (s : String) :
    containsCI s "Veg" = containsCI s "veg" := rfl

theorem mem_filterRecent_isSome (now : Int) (prs : List (Row × Option Date))
    (p : Row × Option Date) (hp : p ∈ filterRecent now prs) :
    p.2.isSome = true := by
  have := (List.mem_filter.mp hp).2
  cases hd : p.2 with
  | none => rw [hd] at this; simp [dateGEb] at this
  | some d => rfl

theorem mem_survivingPairs_iff (now : Int) (rows : List Row)
    (p : Row × Option Date) :
    p ∈ survivingPairs now rows ↔
      (p ∈ filterRecent now (coerceDates rows) ∧
        containsCI p.1.CATEGORY "Veg" = true) := by
  unfold survivingPairs filterVeg
  exact List.mem_filter

/-! ### Claim theorems -/

/-- C7: when the persisted preference file does not exist, loading returns
(without error) the documented default record: exactly two seed favorites,
an empty dislikes list, and an empty recent-choice history. -/
theorem C7_load_default :
    read_memory_bank Disk.absent = Except.ok default_memory ∧
    default_memory.favorites = ["Daal Chawal", "Chicken Handi White"] ∧
    default_memory.favorites.length = 2 ∧
    default_memory.dislikes = [] ∧
    default_memory.last_14_days_suggestions = [] :=
  ⟨rfl, rfl, rfl, rfl, rfl⟩

/-- C9: if the preference file exists but its contents are not valid JSON,
loading does not fall back to the default record: the decode error
propagates to the caller; only absence of the file yields the default. -/
theorem C9_corrupt_propagates :
    read_memory_bank Disk.corrupt = Except.error "JSONDecodeError" ∧
    read_memory_bank Disk.absent = Except.ok default_memory :=
  ⟨rfl, rfl⟩

/-- C8 counterexample: the empty string is a name that is not present in
the default favorites, yet adding it as a favorite appends nothing
(Python's truthiness test `if favorite` rejects the empty string), so the
claim fails at `name = ""`. -/
theorem C8_counterexample :
    "" ∉ default_memory.favorites ∧
    ¬ ((update_preferences (some "") none default_memory).favorites
        = default_memory.favorites ++ [""]) := by
  constructor <;> decide

/-- C8 (amended): for every record and every NON-EMPTY name, adding a
favorite (or dislike) that is already present leaves the record unchanged,
and adding one that is not present appends exactly that name at the end,
touching no other field.  (The empty string, being falsy in Python, is
never added.) -/
theorem C8_add_preference (m : Memory) (name : String) (hne : name ≠ "") :
    (name ∈ m.favorites → update_preferences (some name) none m = m) ∧
    (name ∉ m.favorites →
      (update_preferences (some name) none m).favorites = m.favorites ++ [name] ∧
      (update_preferences (some name) none m).dislikes = m.dislikes ∧
      (update_preferences (some name) none m).last_14_days_suggestions
        = m.last_14_days_suggestions) ∧
    (name ∈ m.dislikes → update_preferences none (some name) m = m) ∧
    (name ∉ m.dislikes →
      (update_preferences none (some name) m).dislikes = m.dislikes ++ [name] ∧
      (update_preferences none (some name) m).favorites = m.favorites ∧
      (update_preferences none (some name) m).last_14_days_suggestions
        = m.last_14_days_suggestions) := by
  refine ⟨?_, ?_, ?_, ?_⟩
  · intro hmem
    simp [update_preferences, hmem]
  · intro hnmem
    simp [update_preferences, hne, hnmem]
  · intro hmem
    simp [update_preferences, hmem]
  · intro hnmem
    simp [update_preferences, hne, hnmem]

/-- Witness for `C8_add_preference`: adding the absent name "Biryani" to
the default favorites appends exactly it at the end. -/
theorem C8_add_preference_witness :
    (update_preferences (some "Biryani") none default_memory).favorites
      = default_memory.favorites ++ ["Biryani"] :=
  ((C8_add_preference default_memory "Biryani" (by decide)).2.1 (by decide)).1

/-- C2: for every history list (with parseable dates) and every reference
time, the pruning step keeps exactly the entries whose parsed date is at
least 14 days * 86400 s before `now`, removing exactly the older ones and
preserving order (it is a `filter`); an entry whose parsed date is exactly
14 days before `now` satisfies the predicate and is retained. -/
theorem C2_prune_exact (history : List Entry) (now : Int)
    (hparse : ∀ e ∈ history, (parseDateYMD e.date).isSome = true) :
    pruneHistory (now - 14 * 86400) history
      = some (history.filter (fun e => entryWithin (now - 14 * 86400) e)) ∧
    (∀ e ∈ history, ∀ d, parseDateYMD e.date = some d →
      (entryWithin (now - 14 * 86400) e = true ↔ now - 14 * 86400 ≤ d.toSeconds)) ∧
    (∀ e ∈ history, ∀ d, parseDateYMD e.date = some d →
      d.toSeconds = now - 14 * 86400 →
      entryWithin (now - 14 * 86400) e = true) := by
  refine ⟨pruneHistory_eq_filter _ _ hparse, ?_, ?_⟩
  · intro e _ d hd
    simp [entryWithin, hd]
  · intro e _ d hd hb
    simp [entryWithin, hd, hb]

/-- Witness for `C2_prune_exact`: the entry dated 2025-01-01 is exactly 14
days before the reference midnight 2025-01-15 and is retained. -/
theorem C2_prune_exact_witness :
    pruneHistory (Date.toSeconds ⟨2025, 1, 15⟩ - 14 * 86400)
        [Entry.mk "Daal Chawal" "2025-01-01"]
      = some [Entry.mk "Daal Chawal" "2025-01-01"] := by
  rw [(C2_prune_exact [Entry.mk "Daal Chawal" "2025-01-01"]
        (Date.toSeconds ⟨2025, 1, 15⟩) (by decide)).1]
  decide

/-- C10: if any entry already present in the history has a date string not
parseable as "%Y-%m-%d", recording a choice raises during pruning and
persists nothing: the in-memory step yields no record to write, and the
on-disk state after the call is exactly what it was before. -/
theorem C10_atomic_on_parse_error (meal : String) (nowDate : Date) (tod : Int)
    (m : Memory) (e : Entry) (he : e ∈ m.last_14_days_suggestions)
    (hbad : parseDateYMD e.date = none) :
    save_selected_meal meal nowDate tod m = none ∧
    save_selected_meal_run meal nowDate tod (Disk.stored m) = Disk.stored m := by
  have hmem : e ∈ m.last_14_days_suggestions ++ [⟨meal, formatYMD nowDate⟩] :=
    List.mem_append_left _ he
  have hnone := pruneHistory_none_of_bad
    ((nowDate.toSeconds + tod) - 14 * 86400) _ e hmem hbad
  constructor
  · simp only [save_selected_meal]
    rw [hnone]
  · simp only [save_selected_meal_run, read_memory_bank, save_selected_meal]
    rw [hnone]

/-- Witness for `C10_atomic_on_parse_error`: with the unparseable entry
"not-a-date" on disk, recording "Daal" leaves the disk untouched. -/
theorem C10_atomic_on_parse_error_witness :
    save_selected_meal "Daal" ⟨2025, 1, 15⟩ 0 badHistoryMemory = none ∧
    save_selected_meal_run "Daal" ⟨2025, 1, 15⟩ 0 (Disk.stored badHistoryMemory)
      = Disk.stored badHistoryMemory :=
  C10_atomic_on_parse_error "Daal" ⟨2025, 1, 15⟩ 0 badHistoryMemory
    ⟨"Karahi", "not-a-date"⟩ (by decide) (by decide)

/-- C6: whenever the surviving row set of the inventory filter is empty,
the stage returns the explicit non-empty "none found" sentinel string, not
an empty list or empty string. -/
theorem C6_empty_sentinel (now : Int) (rows : List Row)
    (hempty : survivingPairs now rows = []) :
    fetch_recent_grocery_data now rows = noVegMessage ∧ noVegMessage ≠ "" := by
  have hlines : inventoryLines now rows = [] := by
    rw [inventoryLines_eq_map, hempty]; rfl
  exact ⟨by simp [fetch_recent_grocery_data, hlines], by decide⟩

/-- Witness for `C6_empty_sentinel`: an empty spreadsheet yields the
sentinel. -/
theorem C6_empty_sentinel_witness :
    fetch_recent_grocery_data 0 [] = noVegMessage ∧ noVegMessage ≠ "" :=
  C6_empty_sentinel 0 [] (by decide)

theorem digitChar_isDigit (n : Nat) : isDigitChar (digitChar n) = true := by
  have h : n % 10 < 10 := Nat.mod_lt _ (by norm_num)
  unfold digitChar
  set k := n % 10 with hk
  interval_cases k <;> decide

theorem formatYMD_shape (dt : Date) : isYMDShape (formatYMD dt) = true := by
  unfold formatYMD isYMDShape pad4 pad2
  simp [digitChar_isDigit]

/-- C4: a date-eligible row survives the inventory filter exactly when its
category text contains the substring "veg" case-insensitively (the code's
pattern "Veg" with `case=False` coincides with "veg"). -/
theorem C4_category_filter (now : Int) (rows : List Row)
    (p : Row × Option Date) :
    p ∈ survivingPairs now rows ↔
      (p ∈ filterRecent now (coerceDates rows) ∧
        containsCI p.1.CATEGORY "veg" = true) := by
  rw [← containsCI_Veg_eq_veg]
  exact mem_survivingPairs_iff now rows p

/-- Witness for `C4_category_filter`: the category "Fresh VEGGIES" matches
"veg" case-insensitively, so the row survives. -/
theorem C4_category_filter_witness :
    (rowVeggies, some (Date.mk 2025 1 16))
      ∈ survivingPairs (Date.toSeconds ⟨2025, 1, 21⟩) [rowVeggies] :=
  (C4_category_filter (Date.toSeconds ⟨2025, 1, 21⟩) [rowVeggies]
    (rowVeggies, some (Date.mk 2025 1 16))).mpr (by constructor <;> decide)

/-- C5: the inventory output has exactly one line per surviving row, in the
rows' original order (the survivors are a sublist of the input), each line
being `"<item> (<qty> <unit>) bought on <date>"` with the date rendered in
the ten-character zero-padded YYYY-MM-DD shape. -/
theorem C5_line_format (now : Int) (rows : List Row) :
    inventoryLines now rows = (survivingPairs now rows).map lineOf ∧
    (∀ p ∈ survivingPairs now rows,
      p.2 = some (p.2.getD ⟨1, 1, 1⟩) ∧
      lineOf p = p.1.ITEM ++ " (" ++ p.1.QTY ++ " " ++ p.1.UNIT
          ++ ") bought on " ++ formatYMD (p.2.getD ⟨1, 1, 1⟩) ∧
      isYMDShape (formatYMD (p.2.getD ⟨1, 1, 1⟩)) = true) ∧
    ((survivingPairs now rows).map Prod.fst).Sublist rows := by
  refine ⟨inventoryLines_eq_map now rows, ?_, ?_⟩
  · intro p hp
    have hrec : p ∈ filterRecent now (coerceDates rows) :=
      (mem_survivingPairs_iff now rows p).mp hp |>.1
    have hsome : p.2.isSome = true := mem_filterRecent_isSome now _ p hrec
    cases hp2 : p.2 with
    | none => rw [hp2] at hsome; cases hsome
    | some d =>
      refine ⟨by simp [hp2], ?_, formatYMD_shape _⟩
      simp [lineOf, hp2]
  · have h3 : (coerceDates rows).map Prod.fst = rows := by
      induction rows with
      | nil => rfl
      | cons r t ih => simpa [coerceDates] using ih
    have h1 : (survivingPairs now rows).Sublist (coerceDates rows) :=
      (List.filter_sublist _).trans (List.filter_sublist _)
    have h2 := h1.map Prod.fst
    rwa [h3] at h2

/-- Witness for `C5_line_format`: one surviving row yields exactly its
formatted line. -/
theorem C5_line_format_witness :
    inventoryLines (Date.toSeconds ⟨2025, 1, 21⟩) [rowVeg5]
      = (survivingPairs (Date.toSeconds ⟨2025, 1, 21⟩) [rowVeg5]).map lineOf :=
  (C5_line_format (Date.toSeconds ⟨2025, 1, 21⟩) [rowVeg5]).1

/-- C3 counterexample: at reference time 2025-01-15 00:00, the vegetable
row dated 2025-03-01 lies outside the trailing 14-day window before `now`
(it is 45 days after `now`), yet the filter retains it and it appears in
the output — the date filter has no upper bound. -/
theorem C3_counterexample :
    Date.toSeconds ⟨2025, 1, 15⟩ < Date.toSeconds ⟨2025, 3, 1⟩ ∧
    parseDateYMD rowFuture.DATE = some ⟨2025, 3, 1⟩ ∧
    fetch_recent_grocery_data (Date.toSeconds ⟨2025, 1, 15⟩) [rowFuture]
      = "Tinda (3 kg) bought on 2025-03-01" := by
  refine ⟨by decide, by decide, by decide⟩

/-- C3 (amended): a row survives the filter exactly when its date parses
and is at least `now - 14 days` — so rows more than 14 days old are
excluded, rows with unparseable dates are dropped silently (they fail the
comparison, never raising), but rows dated after `now` are retained; in
particular, of two "Vegetable" rows dated 20 and 5 days before `now`, only
the 5-day-old row survives. -/
theorem C3_window_filter (now : Int) (rows : List Row) :
    (∀ p : Row × Option Date,
      p ∈ survivingPairs now rows ↔
        (p ∈ coerceDates rows ∧ dateGEb p.2 (now - 14 * 86400) = true ∧
          containsCI p.1.CATEGORY "Veg" = true)) ∧
    (∀ r : Row, parseDateYMD r.DATE = none →
      ∀ o : Option Date, (r, o) ∉ survivingPairs now rows) ∧
    survivingPairs (Date.toSeconds ⟨2025, 1, 21⟩) [rowVeg20, rowVeg5]
      = [(rowVeg5, some ⟨2025, 1, 16⟩)] := by
  have hmem : ∀ p : Row × Option Date,
      p ∈ survivingPairs now rows ↔
        (p ∈ coerceDates rows ∧ dateGEb p.2 (now - 14 * 86400) = true ∧
          containsCI p.1.CATEGORY "Veg" = true) := by
    intro p
    unfold survivingPairs filterVeg filterRecent
    simp only [List.mem_filter, and_assoc]
  refine ⟨hmem, ?_, by decide⟩
  intro r hr o hin
  rcases (hmem (r, o)).mp hin with ⟨hco, hge, _⟩
  rcases List.mem_map.mp hco with ⟨r', _, heq⟩
  have ho : o = parseDateYMD r.DATE := by
    have h1 : r' = r := congrArg Prod.fst heq
    have h2 : parseDateYMD r'.DATE = o := congrArg Prod.snd heq
    rw [← h2, h1]
  rw [ho, hr] at hge
  simp [dateGEb] at hge

/-- Witness for `C3_window_filter`: the row with unparseable date "soon"
never survives. -/
theorem C3_window_filter_witness :
    (rowBadDate, (none : Option Date)) ∉ survivingPairs 0 [rowBadDate] :=
  (C3_window_filter 0 [rowBadDate]).2.1 rowBadDate (by decide) none

/-- C1 counterexample: `save_selected_meal` run at 2025-01-01 writes the
history entry dated 2025-01-01; `update_preferences` run later (at
2025-02-01, 31 days on) writes the record back with that entry still in
it, although it is then far older than 14 days before the time of that
write — `update_preferences` never prunes. -/
theorem C1_counterexample :
    update_preferences_run (some "Biryani") none
        (save_selected_meal_run "Pasta" ⟨2025, 1, 1⟩ 0 Disk.absent)
      = Disk.stored
          { dislikes := []
            favorites := ["Daal Chawal", "Chicken Handi White", "Biryani"]
            last_14_days_suggestions := [⟨"Pasta", "2025-01-01"⟩] } ∧
    entryWithin (Date.toSeconds ⟨2025, 2, 1⟩ + 0 - 14 * 86400)
        ⟨"Pasta", "2025-01-01"⟩ = false := by
  constructor <;> decide

/-- C1 (amended): `save_selected_meal` does maintain the retention
invariant on the record it writes — whenever it succeeds, every persisted
history entry is within 14 days before the write instant; but
`update_preferences` writes the history back exactly as read, without
pruning, so its writes do not re-establish the window. -/
theorem C1_write_invariant :
    (∀ (meal : String) (nowDate : Date) (tod : Int) (m m2 : Memory),
      save_selected_meal meal nowDate tod m = some m2 →
      ∀ e ∈ m2.last_14_days_suggestions,
        entryWithin (nowDate.toSeconds + tod - 14 * 86400) e = true) ∧
    (∀ (favorite dislike : Option String) (m : Memory),
      (update_preferences favorite dislike m).last_14_days_suggestions
        = m.last_14_days_suggestions) := by
  constructor
  · intro meal nowDate tod m m2 hsave e he
    simp only [save_selected_meal] at hsave
    cases hp : pruneHistory ((nowDate.toSeconds + tod) - 14 * 86400)
        (m.last_14_days_suggestions ++ [⟨meal, formatYMD nowDate⟩]) with
    | none => rw [hp] at hsave; cases hsave
    | some pruned =>
      rw [hp] at hsave
      simp only [Option.some.injEq] at hsave
      rw [← hsave] at he
      exact pruneHistory_sound _ _ _ hp e (by simpa using he)
  · intro favorite dislike m
    cases favorite with
    | none =>
      cases dislike with
      | none => rfl
      | some d => simp only [update_preferences]; split <;> rfl
    | some f =>
      cases dislike with
      | none => simp only [update_preferences]; split <;> rfl
      | some d => simp only [update_preferences]; split <;> split <;> rfl

/-- Witness for `C1_write_invariant`: the entry written by a successful
save at 2025-01-01 midnight is within the window of that write. -/
theorem C1_write_invariant_witness :
    entryWithin (Date.toSeconds ⟨2025, 1, 1⟩ + 0 - 14 * 86400)
        ⟨"Pasta", "2025-01-01"⟩ = true :=
  C1_write_invariant.1 "Pasta" ⟨2025, 1, 1⟩ 0 default_memory
    { default_memory with
        last_14_days_suggestions := [⟨"Pasta", "2025-01-01"⟩] }
    (by decide) ⟨"Pasta", "2025-01-01"⟩ (by decide)
